import Mathlib

/-!
  Verification of the `icf-mcp-cloudflare` repository (WHO ICF MCP server).

  Shallow embedding of:
  * `src/who-client.ts` — the `WHOICFClient` class: OAuth2 token lifecycle
    (`authenticate`, `ensureToken`), the authenticated request loop
    (`apiRequest`, including its 401-retry recursion), entity resolution
    (`getEntityByCode`, `getChildren`), `search`, `browseCategory`, and the
    payload normalization in `parseEntity` (title handling).
  * the action-handler module (`handleAction` dispatcher and the per-action
    handlers `handleLookup`, `handleSearch`, `handleBrowse`, `handleChildren`,
    `handleQualifier`, `handleApi`, `handleOverview`, `handleHelp`).

  Modelling conventions:
  * JavaScript `Date.now()` instants and token lifetimes are integers
    (milliseconds / seconds as in the source).
  * Thrown JS exceptions are `Except String` values carrying the `Error`
    message; `try`/`catch` is the surrounding `match`.
  * Network effects are explicit: token-endpoint and API responses are given
    as streams (`Nat → _`) consumed by position, and the recursive 401-retry
    loop of `apiRequest` is given fuel; `noFuel` means "the recursion is
    still running after that many attempts".
  * JS truthiness (`!x`, `x || d`) is modelled explicitly where the source
    relies on it (`tokenMissing`, `jsTruthy`, `jsOrInt`).
  * Provider JSON numbers only matter here by presence/absence, so they are
    modelled as `Int`.
-/

/-! ## JSON values and JavaScript coercions (for `parseEntity`, lines 279-349) -/

inductive Json where
  | jnull : Json
  | jbool : Bool → Json
  | jnum : Int → Json
  | jstr : String → Json
  | jarr : List Json → Json
  | jobj : List (String × Json) → Json

/-- JS truthiness of a JSON value (`Boolean(x)`): `null`, `false`, `0` and
the empty string are falsy; every object and array is truthy. -/
def jsTruthy : Json → Bool
  | .jnull => false
  | .jbool b => b
  | .jstr s => s != ""
  | .jnum n => n != 0
  | .jarr _ => true
  | .jobj _ => true

/-- Test `typeof x === "object" && x !== null` — true exactly for arrays and
(non-null) objects. -/
def isObjectType : Json → Bool
  | .jarr _ => true
  | .jobj _ => true
  | _ => false

/-- First-match field lookup in a JSON object (provider payloads have
unique keys). `none` models JS `undefined`. -/
def jLookup : List (String × Json) → String → Option Json
  | [], _ => none
  | (k, v) :: rest, key => if k = key then some v else jLookup rest key

/-- Reads `x["@value"]` on a JSON value of object type; indexing an array with a
string key yields `undefined`. -/
def jAtValue : Json → Option Json
  | .jobj fields => jLookup fields "@value"
  | _ => none

/-- Hex digit as produced by `JSON.stringify` unicode escapes (lowercase). -/
def hexDigit (n : Nat) : Char :=
  if n < 10 then Char.ofNat (48 + n) else Char.ofNat (87 + n)

/-- One character of a JSON-serialized string, per `JSON.stringify`. -/
def escapeJsonChar (c : Char) : String :=
  if c = Char.ofNat 34 then "\\\""
  else if c = Char.ofNat 92 then "\\\\"
  else if c = Char.ofNat 8 then "\\b"
  else if c = Char.ofNat 9 then "\\t"
  else if c = Char.ofNat 10 then "\\n"
  else if c = Char.ofNat 12 then "\\f"
  else if c = Char.ofNat 13 then "\\r"
  else if c.toNat < 32 then
    "\\u00" ++ String.mk [hexDigit (c.toNat / 16), hexDigit (c.toNat % 16)]
  else String.mk [c]

def escapeJson (s : String) : String :=
  String.join (s.data.map escapeJsonChar)

mutual

/-- Model of `JSON.stringify` on an (acyclic, `undefined`-free) JSON value. -/
def stringifyJson : Json → String
  | .jnull => "null"
  | .jbool b => if b then "true" else "false"
  | .jnum n => toString n
  | .jstr s => "\"" ++ escapeJson s ++ "\""
  | .jarr xs => "[" ++ String.intercalate "," (stringifyJsonList xs) ++ "]"
  | .jobj fs => "\x7b" ++ String.intercalate "," (stringifyJsonFields fs) ++ "\x7d"

def stringifyJsonList : List Json → List String
  | [] => []
  | x :: xs => stringifyJson x :: stringifyJsonList xs

def stringifyJsonFields : List (String × Json) → List String
  | [] => []
  | (k, v) :: fs =>
      ("\"" ++ escapeJson k ++ "\":" ++ stringifyJson v) :: stringifyJsonFields fs

end

mutual

/-- JS `String(x)` coercion on a JSON value. -/
def jsToString : Json → String
  | .jnull => "null"
  | .jbool b => if b then "true" else "false"
  | .jnum n => toString n
  | .jstr s => s
  | .jobj _ => "[object Object]"
  | .jarr xs => String.intercalate "," (jsToStringElems xs)

/-- Elements of `Array.prototype.toString`: `null`/`undefined` entries render
as the empty string. -/
def jsToStringElem : Json → String
  | .jnull => ""
  | .jbool b => if b then "true" else "false"
  | .jnum n => toString n
  | .jstr s => s
  | .jobj _ => "[object Object]"
  | .jarr xs => String.intercalate "," (jsToStringElems xs)

def jsToStringElems : List Json → List String
  | [] => []
  | x :: xs => jsToStringElem x :: jsToStringElems xs

end

/-- Title normalization from `parseEntity` (who-client.ts lines 283-287 and
the final `String(title || "")` at line 341):

```
let title = data.title;
if (typeof title === "object" && title !== null) {
  title = title["@value"] || JSON.stringify(title);
}
... String(title || "")
```
-/
def normalizeTitle (title : Json) : String :=
  let t1 : Json :=
    if isObjectType title then
      match jAtValue title with
      | some v => if jsTruthy v then v else Json.jstr (stringifyJson title)
      | none => Json.jstr (stringifyJson title)
    else title
  if jsTruthy t1 then jsToString t1 else ""

/-! ## Token lifecycle and the authenticated request loop
    (`WHOICFClient`, who-client.ts lines 38-124) -/

/-- The mutable token state of a `WHOICFClient` instance:
`accessToken: string | null` (initially `null`) and
`tokenExpiry: number` (initially `0`, milliseconds since epoch). -/
structure ClientState where
  accessToken : Option String
  tokenExpiry : Int
deriving DecidableEq

/-- A response of the OAuth2 token endpoint. `ok`/`status`/`errBody` describe
the HTTP envelope (`errBody` is `response.text()` on failure); on success the
JSON body is `\x7b access_token, expires_in \x7d` (`expiresIn` in seconds). -/
structure TokenResponse where
  ok : Bool
  status : Nat
  errBody : String
  accessToken : String
  expiresIn : Int
deriving DecidableEq

/-- A response of an authenticated API endpoint: `body` is the parsed JSON
payload used on 2xx, `errText` is `response.text()` used on failure. -/
structure ApiResp (β : Type) where
  status : Nat
  body : β
  errText : String
deriving DecidableEq

/-- Predicate `response.ok` — status in the 2xx range. -/
def respOk (status : Nat) : Bool := 200 ≤ status && status < 300

/-- Embedding of `authenticate` (who-client.ts lines 56-79): posts the client-credentials
form; on non-2xx throws `Authentication failed: $\x7bstatus\x7d - $\x7btext\x7d`;
on success stores the token and records
`tokenExpiry = Date.now() + (expires_in - 300) * 1000`. -/
def authenticate (now : Int) (resp : TokenResponse) : Except String ClientState :=
  if resp.ok then
    Except.ok { accessToken := some resp.accessToken
                tokenExpiry := now + (resp.expiresIn - 300) * 1000 }
  else
    Except.error ("Authentication failed: " ++ toString resp.status ++ " - " ++ resp.errBody)

/-- Guard `!this.accessToken` — JS falsiness of the stored token: `null` or `""`. -/
def tokenMissing : Option String → Bool
  | none => true
  | some t => t == ""

/-- Embedding of `ensureToken` (who-client.ts lines 84-89): refreshes when the token is
falsy or `Date.now() >= this.tokenExpiry`, then returns `this.accessToken!`.
The returned `Bool` records whether a token-exchange network call occurred. -/
def ensureToken (st : ClientState) (now : Int) (resp : TokenResponse) :
    Except String (ClientState × String × Bool) :=
  if tokenMissing st.accessToken || st.tokenExpiry ≤ now then
    match authenticate now resp with
    | Except.error e => Except.error e
    | Except.ok st2 => Except.ok (st2, st2.accessToken.getD "", true)
  else
    Except.ok (st, st.accessToken.getD "", false)

/-- Ghost trace entry: one HTTP attempt of `apiRequest`, recording the bearer
token it sent, the wall-clock instant, and the token expiry recorded in the
client state at that moment. -/
structure SendEvent where
  token : String
  time : Int
  expiry : Int
deriving DecidableEq

/-- Result of the `apiRequest` recursion. `noFuel` means the 401-retry
recursion was still running after the given number of attempts. -/
inductive ApiOutcome (β : Type) where
  | success : β → ApiOutcome β
  | authFailed : String → ApiOutcome β
  | apiError : String → ApiOutcome β
  | noFuel : ApiOutcome β
deriving DecidableEq

/-- Embedding of `apiRequest` (who-client.ts lines 94-124), one recursion step per unit of
fuel:

```
const token = await this.ensureToken();
const response = await fetch(url, \x7b headers: Bearer token ... \x7d);
if (response.status === 401) \x7b
  this.accessToken = null;
  return this.apiRequest(endpoint, params);   // unconditional retry
\x7d
if (!response.ok) throw new Error(`API request failed: ...`);
return response.json();
```

`toks`/`resps` are the token-endpoint and API response streams, consumed at
positions `ti`/`ri`; `sends` accumulates one `SendEvent` per issued attempt.
The URL/query-string construction does not affect control flow and is not
modelled. -/
def apiRequestGo (now : Int) (toks : Nat → TokenResponse) (resps : Nat → ApiResp β) :
    Nat → ClientState → Nat → Nat → List SendEvent → ApiOutcome β × List SendEvent
  | 0, _, _, _, sends => (ApiOutcome.noFuel, sends)
  | fuel + 1, st, ti, ri, sends =>
    match ensureToken st now (toks ti) with
    | Except.error e => (ApiOutcome.authFailed e, sends)
    | Except.ok (st2, tk, exchanged) =>
      let ti2 := if exchanged then ti + 1 else ti
      let r := resps ri
      let sends2 := sends ++ [⟨tk, now, st2.tokenExpiry⟩]
      if r.status = 401 then
        apiRequestGo now toks resps fuel { st2 with accessToken := none } ti2 (ri + 1) sends2
      else if respOk r.status then (ApiOutcome.success r.body, sends2)
      else
        (ApiOutcome.apiError ("API request failed: " ++ toString r.status ++ " - " ++ r.errText), sends2)

/-- One `apiRequest` call on a client in state `st`, at instant `now`. -/
def apiRequest (fuel : Nat) (now : Int) (toks : Nat → TokenResponse)
    (resps : Nat → ApiResp β) (st : ClientState) : ApiOutcome β × List SendEvent :=
  apiRequestGo now toks resps fuel st 0 0 []

/-! ## Entities and client operations (who-client.ts lines 13-29 and 136-274) -/

/-- Structure `ICFEntity` (who-client.ts lines 13-22). -/
structure ICFEntity where
  code : String
  title : String
  definition : Option String
  inclusions : Option (List String)
  exclusions : Option (List String)
  parent : Option String
  children : Option (List String)
  uri : Option String
deriving DecidableEq

/-- Structure `ICFSearchResult` (who-client.ts lines 24-29); the provider relevance
score is modelled as an integer (only presence/absence matters here). -/
structure ICFSearchResult where
  code : String
  title : String
  score : Int
  uri : String
deriving DecidableEq

/-- One element of the search payload `destinationEntities`
(who-client.ts lines 188-193); `none` models an absent field. -/
structure DestEntity where
  theCode : Option String
  title : Option String
  score : Option Int
  id : Option String
deriving DecidableEq

/-- Per-item field defaulting in `search` (who-client.ts lines 199-204):
`theCode || ""`, `title || ""`, `score || 0`, `id || ""`. -/
def destToResult (item : DestEntity) : ICFSearchResult :=
  { code := item.theCode.getD ""
    title := item.title.getD ""
    score := item.score.getD 0
    uri := item.id.getD "" }

/-- Model of `Array.prototype.slice(0, k)` for a possibly negative JS endpoint `k`
(`entities.slice(0, maxResults)`, who-client.ts line 198). -/
def jsSlice0 (k : Int) (l : List α) : List α :=
  if 0 ≤ k then l.take k.toNat else l.take (l.length - (-k).toNat)

/-- The parsed body of the `codeinfo` endpoint: `\x7b stemId?: string \x7d`
(who-client.ts line 141). -/
structure CodeinfoBody where
  stemId : Option String
deriving DecidableEq

/-- Embedding of `getEntityByCode` (who-client.ts lines 136-153). `fetchCodeinfo` is the
result of `await this.apiRequest(codeinfoEndpoint)` (`Except.error` = the
awaited promise rejected); the surrounding `try`/`catch` turns ANY error into
`null` (after `console.warn`). `getByUri` is `getEntityByUri`, which never
throws (it catches internally and degrades to `null`, lines 158-174). -/
def getEntityByCode (fetchCodeinfo : Except String CodeinfoBody)
    (getByUri : String → Option ICFEntity) : Option ICFEntity :=
  match fetchCodeinfo with
  | Except.error _ => none
  | Except.ok info =>
    match info.stemId with
    | none => none
    | some stem => getByUri stem

/-- Embedding of `getChildren` (who-client.ts lines 213-228): resolve the parent by code;
absent entity or absent `children` field gives `[]`; otherwise each child URI
is resolved in declared order and failed resolutions are dropped. -/
def getChildren (getByCode : String → Option ICFEntity)
    (getByUri : String → Option ICFEntity) (code : String) : List ICFEntity :=
  match getByCode code with
  | none => []
  | some entity =>
    match entity.children with
    | none => []
    | some uris => uris.filterMap getByUri

/-- Model of `category.toLowerCase()`, character-wise (ASCII case folding,
which is what `toLowerCase` does on the single-letter inputs involved);
written over the character list so the kernel can evaluate it. -/
def jsToLower (s : String) : String := String.mk (s.data.map Char.toLower)

/-- The static category table of `browseCategory` (who-client.ts lines 239-244). -/
def categoryMap (c : String) : Option String :=
  if c = "b" then some "Body Functions"
  else if c = "s" then some "Body Structures"
  else if c = "d" then some "Activities and Participation"
  else if c = "e" then some "Environmental Factors"
  else none

/-- Embedding of `getCategoryDescription` (who-client.ts lines 266-274). -/
def getCategoryDescription (c : String) : String :=
  if c = "b" then
    "Body Functions are the physiological functions of body systems (including psychological functions). Codes range from b1 to b8."
  else if c = "s" then
    "Body Structures are anatomical parts of the body such as organs, limbs and their components. Codes range from s1 to s8."
  else if c = "d" then
    "Activities and Participation covers the execution of tasks and involvement in life situations. Codes range from d1 to d9."
  else if c = "e" then
    "Environmental Factors make up the physical, social and attitudinal environment in which people live. Codes range from e1 to e5."
  else ""

/-- The return shape of `browseCategory` (who-client.ts lines 233-238). -/
structure BrowseResult where
  category : String
  name : String
  description : String
  results : List ICFSearchResult
deriving DecidableEq

/-- Embedding of `browseCategory` (who-client.ts lines 233-261): lowercases the input,
throws `Invalid category ...` when it is not in the four-entry table, else
searches the category name with `maxResults = 20` (the search itself may
throw) and attaches the static description. `searchFn` is `this.search`. -/
def browseCategory (searchFn : String → Int → Except String (List ICFSearchResult))
    (category : String) : Except String BrowseResult :=
  let cat := jsToLower category
  match categoryMap cat with
  | none =>
    Except.error ("Invalid category \x27" ++ category ++ "\x27. Must be one of: b, s, d, e")
  | some name =>
    match searchFn name 20 with
    | Except.error e => Except.error e
    | Except.ok results =>
      Except.ok { category := cat, name := name
                  description := getCategoryDescription cat, results := results }

/-! ## The action dispatcher (action-handler module) -/

/-- The MCP tool result shape: a list of text contents plus the error flag
(`isError` absent in the source is modelled as `false`). -/
structure ToolResult where
  content : List String
  isError : Bool
deriving DecidableEq

/-- The dispatcher input `ICFParamsType` (types.ts lines 26-36); the `action`
tag is kept as a raw string so the `default` branch is reachable. -/
structure ICFParams where
  action : String
  code : Option String := none
  query : Option String := none
  category : Option String := none
  qualifier : Option Int := none
  max_results : Option Int := none
  path : Option String := none
deriving DecidableEq

/-- JS falsiness of an optional string parameter (`!params.code` etc.):
absent or empty. -/
def strMissing : Option String → Bool
  | none => true
  | some s => s == ""

/-- Model of `params.max_results || 10` — the default applies to any falsy value
(absent or `0`). -/
def jsOrInt (m : Option Int) (d : Int) : Int :=
  match m with
  | none => d
  | some v => if v = 0 then d else v

/-- The client as seen by the dispatcher. `getByCode`/`getByUri` never throw
(they catch internally); `searchDest` is the outcome of the search API call
(`Except.error` = thrown), yielding the optional `destinationEntities` list;
`rawReq` is `client.rawRequest` — repository code not present under `src/`,
abstracted by its interface (it may throw or produce display text). -/
structure ClientOracle where
  getByCode : String → Option ICFEntity
  getByUri : String → Option ICFEntity
  searchDest : String → Except String (Option (List DestEntity))
  rawReq : String → Except String String

/-- Embedding of `WHOICFClient.search` (who-client.ts lines 179-208) as used by the
dispatcher: `destinationEntities || []`, truncate with `slice(0, maxResults)`,
then per-item defaulting. -/
def clientSearch (o : ClientOracle) (query : String) (maxResults : Int) :
    Except String (List ICFSearchResult) :=
  match o.searchDest query with
  | Except.error e => Except.error e
  | Except.ok destOpt =>
    Except.ok ((jsSlice0 maxResults (destOpt.getD [])).map destToResult)

/-- Embedding of `formatEntity` (action-handler module lines 11-33), with the JS
truthiness/length guards on the optional fields. -/
def formatEntity (e : ICFEntity) : String :=
  String.intercalate "\n"
    (["**" ++ e.code ++ "**: " ++ e.title]
      ++ (match e.definition with
          | some d => if d == "" then [] else ["\n**Definition:** " ++ d]
          | none => [])
      ++ (match e.inclusions with
          | some incs =>
            if incs.length > 0 then
              "\n**Includes:**" :: incs.map (fun i => "  - " ++ i)
            else []
          | none => [])
      ++ (match e.exclusions with
          | some excs =>
            if excs.length > 0 then
              "\n**Excludes:**" :: excs.map (fun x => "  - " ++ x)
            else []
          | none => []))

/-- Embedding of `handleLookup` (action-handler module lines 89-103). -/
def handleLookup (o : ClientOracle) (code : String) : ToolResult :=
  match o.getByCode code with
  | none =>
    { content := ["ICF code \x27" ++ code
        ++ "\x27 not found. Use \x7b\"action\": \"search\", \"query\": \"...\"\x7d to find codes."]
      isError := false }
  | some entity => { content := [formatEntity entity], isError := false }

/-- Embedding of `handleSearch` (action-handler module lines 105-132): empty results give
informational text; otherwise one numbered line per result, in order. -/
def handleSearch (query : String) (results : List ICFSearchResult) : ToolResult :=
  if results.length = 0 then
    { content := ["No ICF codes found for \x27" ++ query ++ "\x27. Try different search terms."]
      isError := false }
  else
    let lines := ("**ICF Search Results for \x27" ++ query ++ "\x27:**\n")
      :: (results.enum.map (fun p => toString (p.1 + 1) ++ ". **" ++ p.2.code ++ "**: " ++ p.2.title))
      ++ ["\nUse \x7b\"action\": \"lookup\", \"code\": \"...\"\x7d for full details."]
    { content := [String.intercalate "\n" lines], isError := false }

/-- Embedding of `handleBrowse` (action-handler module lines 134-164). Its own
`try`/`catch` renders a thrown error `e` as `String(error)`, which for a JS
`Error` object is `"Error: " ++ message`, with the error flag set. -/
def handleBrowse (searchFn : String → Int → Except String (List ICFSearchResult))
    (category : String) : ToolResult :=
  match browseCategory searchFn category with
  | Except.error e => { content := ["Error: " ++ e], isError := true }
  | Except.ok result =>
    let lines := ["**ICF Category: " ++ result.name ++ "** (codes starting with \x27"
          ++ result.category ++ "\x27)", "", result.description, "",
          "**Sample codes in this category:**"]
      ++ (result.results.take 10).map (fun item => "  - **" ++ item.code ++ "**: " ++ item.title)
      ++ ["\nUse \x7b\"action\": \"search\"\x7d or \x7b\"action\": \"lookup\"\x7d for more."]
    { content := [String.intercalate "\n" lines], isError := false }

/-- Embedding of `handleChildren` (action-handler module lines 166-186). -/
def handleChildren (code : String) (children : List ICFEntity) : ToolResult :=
  if children.length = 0 then
    { content := ["No child codes found for \x27" ++ code ++ "\x27. This may be a leaf-level code."]
      isError := false }
  else
    { content := [String.intercalate "\n"
        (("**Child codes under " ++ code ++ ":**\n")
          :: children.map (fun c => "- **" ++ c.code ++ "**: " ++ c.title))]
      isError := false }

/-- The static qualifier table (action-handler module lines 189-197). -/
def qualifierTable (q : Int) : Option (String × String × String) :=
  if q = 0 then some ("No problem", "0-4%", "None, absent, negligible")
  else if q = 1 then some ("Mild problem", "5-24%", "Slight, low")
  else if q = 2 then some ("Moderate problem", "25-49%", "Medium, fair")
  else if q = 3 then some ("Severe problem", "50-95%", "High, extreme")
  else if q = 4 then some ("Complete problem", "96-100%", "Total")
  else if q = 8 then some ("Not specified", "N/A", "Insufficient information to specify severity")
  else if q = 9 then some ("Not applicable", "N/A", "Inappropriate to apply this code")
  else none

/-- Embedding of `handleQualifier` (action-handler module lines 188-225): a key outside
the table yields the enumerating invalid-value message WITHOUT the error
flag; a key in the table yields the fixed triple rendered in the template. -/
def handleQualifier (q : Int) : ToolResult :=
  match qualifierTable q with
  | none =>
    { content := ["Invalid qualifier \x27" ++ toString q
        ++ "\x27. Valid: 0 (none), 1 (mild), 2 (moderate), 3 (severe), 4 (complete), 8 (not specified), 9 (not applicable)"]
      isError := false }
  | some (level, percentage, description) =>
    { content := ["**ICF Qualifier " ++ toString q ++ ": " ++ level
        ++ "**\n\n- **Percentage range:** " ++ percentage
        ++ "\n- **Description:** " ++ description
        ++ "\n\nExample: d450." ++ toString q ++ " means \x27" ++ level.toLower
        ++ "\x27 difficulty with walking."]
      isError := false }

/-- Embedding of `handleApi` (action-handler module lines 227-247): path must start with
`/`; its own `try`/`catch` renders a thrown error as `API Error: ...`. The
pretty-printed success output is abstracted as the string of the oracle. -/
def handleApi (o : ClientOracle) (path : String) : ToolResult :=
  if !(path.startsWith "/") then
    { content := ["Path must start with /"], isError := true }
  else
    match o.rawReq path with
    | Except.ok body => { content := [body], isError := false }
    | Except.error e => { content := ["API Error: " ++ e], isError := true }

/-- Embedding of `handleHelp` (action-handler module lines 249-296): static usage text. -/
def handleHelp : ToolResult :=
  { content := [String.intercalate "\n"
      ["# ICF MCP Server", "", "## Actions", "",
       "**lookup** - Get full details for an ICF code",
       "  \x7b\"action\": \"lookup\", \"code\": \"b280\"\x7d",
       "  \x7b\"action\": \"lookup\", \"code\": \"d450\"\x7d", "",
       "**search** - Find codes by keyword",
       "  \x7b\"action\": \"search\", \"query\": \"walking\"\x7d",
       "  \x7b\"action\": \"search\", \"query\": \"pain\", \"max_results\": 5\x7d", "",
       "**browse** - Explore a category",
       "  \x7b\"action\": \"browse\", \"category\": \"b\"\x7d  (Body Functions)",
       "  \x7b\"action\": \"browse\", \"category\": \"d\"\x7d  (Activities)", "",
       "**children** - Get subcodes",
       "  \x7b\"action\": \"children\", \"code\": \"d4\"\x7d", "",
       "**qualifier** - Explain severity ratings",
       "  \x7b\"action\": \"qualifier\", \"qualifier\": 2\x7d", "",
       "**overview** - ICF system overview",
       "  \x7b\"action\": \"overview\"\x7d", "",
       "**api** - Raw WHO API request",
       "  \x7b\"action\": \"api\", \"path\": \"/icd/release/11/2025-01/icf\"\x7d", "",
       "## ICF Code Prefixes",
       "- **b**: Body Functions (physiological/psychological)",
       "- **s**: Body Structures (anatomical)",
       "- **d**: Activities & Participation (tasks/life involvement)",
       "- **e**: Environmental Factors (physical/social/attitudinal)", "",
       "## Qualifiers (severity)",
       "0=none, 1=mild, 2=moderate, 3=severe, 4=complete", "",
       "## More Info",
       "https://www.who.int/standards/classifications/international-classification-of-functioning-disability-and-health"]]
    isError := false }

/-- Embedding of `handleOverview` (action-handler module lines 298-355): static text. -/
def handleOverview : ToolResult :=
  { content := [String.intercalate "\n"
      ["**International Classification of Functioning, Disability and Health (ICF)**", "",
       "The ICF is a WHO classification providing a standard language for describing health and health-related states. It complements ICD (diagnosis codes) by describing how conditions affect functioning.",
       "", "## Structure", "", "### Body Functions (b)",
       "Physiological functions including psychological functions.",
       "- b1: Mental functions", "- b2: Sensory functions and pain",
       "- b3: Voice and speech", "- b4: Cardiovascular, respiratory systems",
       "- b5: Digestive, metabolic, endocrine", "- b6: Genitourinary and reproductive",
       "- b7: Neuromusculoskeletal and movement", "- b8: Skin and related structures", "",
       "### Body Structures (s)", "Anatomical parts of the body.",
       "- s1-s8: Corresponding structures", "",
       "### Activities and Participation (d)", "Task execution and life involvement.",
       "- d1: Learning and applying knowledge", "- d2: General tasks and demands",
       "- d3: Communication", "- d4: Mobility", "- d5: Self-care",
       "- d6: Domestic life", "- d7: Interpersonal interactions",
       "- d8: Major life areas", "- d9: Community, social, civic life", "",
       "### Environmental Factors (e)", "Physical, social, attitudinal environment.",
       "- e1: Products and technology", "- e2: Natural environment",
       "- e3: Support and relationships", "- e4: Attitudes",
       "- e5: Services, systems, policies", "", "## Qualifiers",
       "- 0: No problem (0-4%)", "- 1: Mild (5-24%)", "- 2: Moderate (25-49%)",
       "- 3: Severe (50-95%)", "- 4: Complete (96-100%)", "",
       "Use \x7b\"action\": \"help\"\x7d for available actions."]]
    isError := false }

/-- The body of `handleAction` inside its `try` (action-handler module lines
43-79): the `switch` over the action tag, with per-action required-parameter
checks (`throw` = `Except.error`) before the handler runs. -/
def handleActionBody (params : ICFParams) (o : ClientOracle) : Except String ToolResult :=
  if params.action = "lookup" then
    if strMissing params.code then Except.error "code required for lookup"
    else Except.ok (handleLookup o (params.code.getD ""))
  else if params.action = "search" then
    if strMissing params.query then Except.error "query required for search"
    else
      match clientSearch o (params.query.getD "") (jsOrInt params.max_results 10) with
      | Except.error e => Except.error e
      | Except.ok results => Except.ok (handleSearch (params.query.getD "") results)
  else if params.action = "browse" then
    if strMissing params.category then Except.error "category required for browse"
    else Except.ok (handleBrowse (fun q k => clientSearch o q k) (params.category.getD ""))
  else if params.action = "children" then
    if strMissing params.code then Except.error "code required for children"
    else
      Except.ok (handleChildren (params.code.getD "")
        (getChildren o.getByCode o.getByUri (params.code.getD "")))
  else if params.action = "qualifier" then
    match params.qualifier with
    | none => Except.error "qualifier value required"
    | some q => Except.ok (handleQualifier q)
  else if params.action = "overview" then Except.ok handleOverview
  else if params.action = "api" then
    if strMissing params.path then Except.error "path required for api"
    else Except.ok (handleApi o (params.path.getD ""))
  else if params.action = "help" then Except.ok handleHelp
  else
    Except.ok { content := ["Unknown action: " ++ params.action], isError := true }

/-- Embedding of `handleAction` (action-handler module lines 38-87): the dispatch
boundary. The `catch` converts any raised error into an error-flagged text
result `Error: $\x7bmessage\x7d`; the function is total — no exception
escapes to the caller. -/
def handleAction (params : ICFParams) (o : ClientOracle) : ToolResult :=
  match handleActionBody params o with
  | Except.ok r => r
  | Except.error msg => { content := ["Error: " ++ msg], isError := true }

/-! ## Concrete environments used for witnesses and counterexamples -/

/-- A token endpoint that always succeeds with a one-hour token. -/
def goodTok : Nat → TokenResponse := fun _ => ⟨true, 200, "", "tok", 3600⟩

/-- A token endpoint that always fails with HTTP 500. -/
def badTok : Nat → TokenResponse := fun _ => ⟨false, 500, "server error", "", 0⟩

/-- A token endpoint whose tokens expire immediately
(`expires_in = 0` ≤ the 300 s safety margin). -/
def zeroLifeTok : Nat → TokenResponse := fun _ => ⟨true, 200, "", "tk", 0⟩

/-- An API that always answers 401 Unauthorized. -/
def all401 : Nat → ApiResp String := fun _ => ⟨401, "", "Unauthorized"⟩

/-- An API that answers 401 twice, then 200 with body `payload`. -/
def twice401 : Nat → ApiResp String := fun i => if i < 2 then ⟨401, "", "Unauthorized"⟩ else ⟨200, "payload", ""⟩

/-- An API that always answers 200 with body `ok`. -/
def okResp : Nat → ApiResp String := fun _ => ⟨200, "ok", ""⟩

/-- A client oracle with no entities, empty search results and a trivial raw
endpoint. -/
def emptyOracle : ClientOracle :=
  { getByCode := fun _ => none
    getByUri := fun _ => none
    searchDest := fun _ => Except.ok none
    rawReq := fun _ => Except.ok "" }

/-- All-default entity record (used to state the order-preservation shape of
child resolution). -/
def blankEntity : ICFEntity := ⟨"", "", none, none, none, none, none, none⟩

/-- Eleven identical provider search hits (more than the default of 10). -/
def destList11 : List DestEntity :=
  List.replicate 11 ⟨some "d450", some "Walking", some 1, some "uri"⟩

/-- A client oracle whose search finds `destList11` for every query. -/
def searchOracle : ClientOracle :=
  { getByCode := fun _ => none
    getByUri := fun _ => none
    searchDest := fun _ => Except.ok (some destList11)
    rawReq := fun _ => Except.ok "" }

/-- A client oracle whose search API call always throws. -/
def throwingOracle : ClientOracle :=
  { getByCode := fun _ => none
    getByUri := fun _ => none
    searchDest := fun _ => Except.error "API request failed: 500 - boom"
    rawReq := fun _ => Except.ok "" }

/-- A parent entity declaring three child URIs. -/
def parentEntity : ICFEntity :=
  ⟨"d4", "Mobility", none, none, none, none, some ["u1", "u2", "u3"], none⟩

/-- Resolved child entities for the fixtures. -/
def childA : ICFEntity := ⟨"d410", "Changing basic body position", none, none, none, none, none, none⟩

def childC : ICFEntity := ⟨"d450", "Walking", none, none, none, none, none, none⟩

/-- A URI resolver that succeeds on `u1` and `u3` and fails on `u2`. -/
def childFetch : String → Option ICFEntity := fun u =>
  if u = "u1" then some childA else if u = "u3" then some childC else none

/-! ## Helper lemmas -/

/-- Serializing a JSON object always yields a nonempty string (it is wrapped
in braces). -/
lemma stringifyJson_jobj_ne_empty (fields : List (String × Json)) :
    stringifyJson (Json.jobj fields) ≠ "" := by
  intro h
  have hl := congrArg String.length h
  rw [stringifyJson] at hl
  simp [String.length_append] at hl
  exact absurd hl.1.1 (by decide)

/-- If `ensureToken` hands back a token and the exchanged token lifetime
exceeds the 300 s margin, the recorded expiry lies strictly in the future at
hand-back time (cached tokens satisfy this from the refresh guard alone). -/
lemma ensureToken_ok_now_lt_expiry {st : ClientState} {now : Int} {resp : TokenResponse}
    {st2 : ClientState} {tk : String} {ex : Bool} (hlife : 300 < resp.expiresIn)
    (h : ensureToken st now resp = Except.ok (st2, tk, ex)) : now < st2.tokenExpiry := by
  by_cases hc : (tokenMissing st.accessToken || decide (st.tokenExpiry ≤ now)) = true
  · rw [ensureToken, if_pos hc] at h
    by_cases hok : resp.ok = true
    · rw [authenticate, if_pos hok] at h
      simp only [Except.ok.injEq, Prod.mk.injEq] at h
      obtain ⟨h1, -, -⟩ := h
      subst h1
      simp only []
      omega
    · rw [authenticate, if_neg hok] at h
      simp at h
  · rw [ensureToken, if_neg hc] at h
    simp only [Except.ok.injEq, Prod.mk.injEq] at h
    obtain ⟨h1, -, -⟩ := h
    subst h1
    simp only [Bool.or_eq_true, decide_eq_true_eq, not_or] at hc
    omega

/-- Ghost-trace invariant of the request loop: if every token-exchange
response reports a lifetime above the 300 s margin, every attempt is sent
strictly before the recorded expiry. -/
lemma apiRequestGo_sends_fresh (now : Int) (toks : Nat → TokenResponse)
    (resps : Nat → ApiResp β) :
    ∀ (fuel : Nat) (st : ClientState) (ti ri : Nat) (sends : List SendEvent),
      (∀ i, 300 < (toks i).expiresIn) →
      (∀ e ∈ sends, e.time < e.expiry) →
      ∀ e ∈ (apiRequestGo now toks resps fuel st ti ri sends).2, e.time < e.expiry := by
  intro fuel
  induction fuel with
  | zero => intro st ti ri sends _ hs e he; exact hs e he
  | succ n ih =>
    intro st ti ri sends hlife hs e he
    rw [apiRequestGo] at he
    cases h : ensureToken st now (toks ti) with
    | error msg => rw [h] at he; exact hs e he
    | ok v =>
      obtain ⟨st2, tk, ex⟩ := v
      rw [h] at he
      have hlt : now < st2.tokenExpiry := ensureToken_ok_now_lt_expiry (hlife ti) h
      have hs2 : ∀ x ∈ sends ++ [⟨tk, now, st2.tokenExpiry⟩], SendEvent.time x < SendEvent.expiry x := by
        intro x hx
        rcases List.mem_append.mp hx with hx1 | hx2
        · exact hs x hx1
        · rcases List.mem_singleton.mp hx2 with rfl
          exact hlt
      simp only [] at he
      by_cases h401 : (resps ri).status = 401
      · rw [if_pos h401] at he
        exact ih _ _ _ _ hlife hs2 e he
      · rw [if_neg h401] at he
        by_cases hok2 : respOk (resps ri).status = true
        · rw [if_pos hok2] at he
          exact hs2 e he
        · rw [if_neg hok2] at he
          exact hs2 e he

/-! ## Claim theorems -/

/-- C8: for every qualifier key in \x7b0,1,2,3,4,8,9\x7d the qualifier action
uses the exact fixed label/percentage-range/description triple from the
static table, and for any other integer it returns, without the error flag,
the invalid-value message enumerating exactly those seven keys. -/
theorem icf_C8_qualifier :
    qualifierTable 0 = some ("No problem", "0-4%", "None, absent, negligible") ∧
    qualifierTable 1 = some ("Mild problem", "5-24%", "Slight, low") ∧
    qualifierTable 2 = some ("Moderate problem", "25-49%", "Medium, fair") ∧
    qualifierTable 3 = some ("Severe problem", "50-95%", "High, extreme") ∧
    qualifierTable 4 = some ("Complete problem", "96-100%", "Total") ∧
    qualifierTable 8 = some ("Not specified", "N/A", "Insufficient information to specify severity") ∧
    qualifierTable 9 = some ("Not applicable", "N/A", "Inappropriate to apply this code") ∧
    (∀ q : Int, q ∉ ([0, 1, 2, 3, 4, 8, 9] : List Int) →
      handleQualifier q =
        { content := ["Invalid qualifier \x27" ++ toString q
            ++ "\x27. Valid: 0 (none), 1 (mild), 2 (moderate), 3 (severe), 4 (complete), 8 (not specified), 9 (not applicable)"]
          isError := false }) := by
  refine ⟨rfl, rfl, rfl, rfl, rfl, rfl, rfl, ?_⟩
  intro q hq
  simp only [List.mem_cons, List.not_mem_nil, or_false, not_or] at hq
  obtain ⟨h0, h1, h2, h3, h4, h8, h9⟩ := hq
  simp [handleQualifier, qualifierTable, h0, h1, h2, h3, h4, h8, h9]

/-- Witness for C8: the qualifier value 5 is outside the table and produces
the enumerating invalid-value message without the error flag. -/
theorem icf_C8_qualifier_witness :
    (5 : Int) ∉ ([0, 1, 2, 3, 4, 8, 9] : List Int) ∧
    handleQualifier 5 =
      { content := ["Invalid qualifier \x275\x27. Valid: 0 (none), 1 (mild), 2 (moderate), 3 (severe), 4 (complete), 8 (not specified), 9 (not applicable)"]
        isError := false } :=
  ⟨by decide, icf_C8_qualifier.2.2.2.2.2.2.2 5 (by decide)⟩

/-- C5 counterexample: a title wrapper whose `@value` IS present but holds
the empty string does NOT normalize to that string — the empty string is
falsy in JS, so `parseEntity` falls back to `JSON.stringify` of the wrapper.
This refutes the claim that `\x7b"@value": "X"\x7d` always yields `"X"`. -/
theorem icf_C5_counterexample :
    normalizeTitle (Json.jobj [("@value", Json.jstr "")]) = "\x7b\"@value\":\"\"\x7d" ∧
    ("\x7b\"@value\":\"\"\x7d" : String) ≠ "" := by
  exact ⟨rfl, by decide⟩

/-- C5 (amended): a plain-string title is returned unchanged (including the
empty string); a wrapper `\x7b"@value": "X"\x7d` yields `"X"` for nonempty
`X` (an empty wrapped value falls back to the serialized wrapper, see the
counterexample); a wrapper without the `@value` key yields its serialized
form. Normalization is a total Lean function over all JSON shapes, so it
never throws and always produces some string. -/
theorem icf_C5_amended :
    (∀ s : String, normalizeTitle (Json.jstr s) = s) ∧
    (∀ x : String, x ≠ "" → normalizeTitle (Json.jobj [("@value", Json.jstr x)]) = x) ∧
    (∀ fields : List (String × Json), jLookup fields "@value" = none →
      normalizeTitle (Json.jobj fields) = stringifyJson (Json.jobj fields)) := by
  refine ⟨?_, ?_, ?_⟩
  · intro s
    by_cases h : s = ""
    · subst h; rfl
    · simp [normalizeTitle, isObjectType, jsTruthy, jsToString, h]
  · intro x hx
    simp [normalizeTitle, isObjectType, jAtValue, jLookup, jsTruthy, jsToString, hx]
  · intro fields h
    simp [normalizeTitle, isObjectType, jAtValue, h, jsTruthy, jsToString,
      stringifyJson_jobj_ne_empty fields]

/-- Witness for C5: concrete instances of the amended claim — a nonempty
wrapped value is unwrapped, and a wrapper without the key serializes. -/
theorem icf_C5_amended_witness :
    ("Walking" : String) ≠ "" ∧
    normalizeTitle (Json.jobj [("@value", Json.jstr "Walking")]) = "Walking" ∧
    jLookup [("en", Json.jstr "hi")] "@value" = none ∧
    normalizeTitle (Json.jobj [("en", Json.jstr "hi")]) = stringifyJson (Json.jobj [("en", Json.jstr "hi")]) :=
  ⟨by decide, icf_C5_amended.2.1 "Walking" (by decide), rfl,
    icf_C5_amended.2.2 [("en", Json.jstr "hi")] rfl⟩

/-- C9: for every category letter in \x7bb,s,d,e\x7d, compared
case-insensitively via `toLowerCase`, `browseCategory` returns the matching
static name and description (and the dispatcher renders it without the error
flag); any other input yields an error-flagged validation message naming the
four valid letters, whose result is the same for every search function —
i.e. no search is performed. -/
theorem icf_C9_browse :
    (∀ (sf : String → Int → Except String (List ICFSearchResult)) (c : String)
        (res : List ICFSearchResult), jsToLower c = "b" →
      sf "Body Functions" 20 = Except.ok res →
      browseCategory sf c = Except.ok ⟨"b", "Body Functions",
        "Body Functions are the physiological functions of body systems (including psychological functions). Codes range from b1 to b8.", res⟩) ∧
    (∀ sf c res, jsToLower c = "s" → sf "Body Structures" 20 = Except.ok res →
      browseCategory sf c = Except.ok ⟨"s", "Body Structures",
        "Body Structures are anatomical parts of the body such as organs, limbs and their components. Codes range from s1 to s8.", res⟩) ∧
    (∀ sf c res, jsToLower c = "d" → sf "Activities and Participation" 20 = Except.ok res →
      browseCategory sf c = Except.ok ⟨"d", "Activities and Participation",
        "Activities and Participation covers the execution of tasks and involvement in life situations. Codes range from d1 to d9.", res⟩) ∧
    (∀ sf c res, jsToLower c = "e" → sf "Environmental Factors" 20 = Except.ok res →
      browseCategory sf c = Except.ok ⟨"e", "Environmental Factors",
        "Environmental Factors make up the physical, social and attitudinal environment in which people live. Codes range from e1 to e5.", res⟩) ∧
    (∀ sf c r, browseCategory sf c = Except.ok r → (handleBrowse sf c).isError = false) ∧
    (∀ sf c, categoryMap (jsToLower c) = none →
      handleBrowse sf c =
        { content := ["Error: " ++ ("Invalid category \x27" ++ c ++ "\x27. Must be one of: b, s, d, e")]
          isError := true }) := by
  refine ⟨?_, ?_, ?_, ?_, ?_, ?_⟩
  · intro sf c res hc hsf
    simp [browseCategory, hc, categoryMap, hsf, getCategoryDescription]
  · intro sf c res hc hsf
    simp [browseCategory, hc, categoryMap, hsf, getCategoryDescription]
  · intro sf c res hc hsf
    simp [browseCategory, hc, categoryMap, hsf, getCategoryDescription]
  · intro sf c res hc hsf
    simp [browseCategory, hc, categoryMap, hsf, getCategoryDescription]
  · intro sf c r h
    simp [handleBrowse, h]
  · intro sf c h
    simp [handleBrowse, browseCategory, h, String.append_assoc]

/-- Witness for C9: uppercase `B` browses Body Functions; the letter `x`
yields the error-flagged validation message. -/
theorem icf_C9_browse_witness :
    browseCategory (fun _ _ => Except.ok []) "B" = Except.ok ⟨"b", "Body Functions",
      "Body Functions are the physiological functions of body systems (including psychological functions). Codes range from b1 to b8.", []⟩ ∧
    handleBrowse (fun _ _ => Except.ok []) "x" =
      { content := ["Error: Invalid category \x27x\x27. Must be one of: b, s, d, e"]
        isError := true } :=
  ⟨icf_C9_browse.1 (fun _ _ => Except.ok []) "B" [] (by decide) rfl,
    icf_C9_browse.2.2.2.2.2 (fun _ _ => Except.ok []) "x" (by decide)⟩

/-- C10: in the dispatcher, a caller-supplied `max_results` of `0` for the
search action is replaced by the default `10` before the client is invoked
(`params.max_results || 10` defaults any falsy value), so such a search
returns up to 10 entries — `min N 10` for `N` provider matches — rather
than an empty result. -/
theorem icf_C10_zero_max_results :
    jsOrInt (some 0) 10 = 10 ∧
    (∀ (o : ClientOracle) (q : String) (dest : List DestEntity),
      q ≠ "" → o.searchDest q = Except.ok (some dest) →
      handleAction { action := "search", query := some q, max_results := some 0 } o =
        handleSearch q ((dest.take 10).map destToResult) ∧
      ((dest.take 10).map destToResult).length = min dest.length 10) := by
  refine ⟨rfl, ?_⟩
  intro o q dest hq hde
  constructor
  · simp [handleAction, handleActionBody, strMissing, hq, clientSearch, hde,
      jsOrInt, jsSlice0]
  · simp [List.length_take, Nat.min_comm]

/-- Witness for C10: with 11 provider matches and `max_results = 0`, the
dispatcher returns the 10-entry rendering, not an empty result. -/
theorem icf_C10_zero_max_results_witness :
    handleAction { action := "search", query := some "walking", max_results := some 0 } searchOracle =
      handleSearch "walking" ((destList11.take 10).map destToResult) ∧
    ((destList11.take 10).map destToResult).length = min destList11.length 10 :=
  icf_C10_zero_max_results.2 searchOracle "walking" destList11 (by decide) rfl

/-- C4: the dispatch contract — a missing required parameter for the
selected action produces the parameter-validation error result, identical
for every client oracle (so the client is never consulted); an unknown
action name produces an error-flagged result naming it; an exception raised
by the client during action execution (here: the search call throwing) is
converted into an error-flagged result carrying the exception message.
`handleAction` is a total function, so no exception escapes the dispatcher. -/
theorem icf_C4_dispatch :
    (∀ (o : ClientOracle) (p : ICFParams), p.action = "lookup" → strMissing p.code = true →
      handleAction p o = { content := ["Error: code required for lookup"], isError := true }) ∧
    (∀ o p, p.action = "search" → strMissing p.query = true →
      handleAction p o = { content := ["Error: query required for search"], isError := true }) ∧
    (∀ o p, p.action = "browse" → strMissing p.category = true →
      handleAction p o = { content := ["Error: category required for browse"], isError := true }) ∧
    (∀ o p, p.action = "children" → strMissing p.code = true →
      handleAction p o = { content := ["Error: code required for children"], isError := true }) ∧
    (∀ o p, p.action = "qualifier" → p.qualifier = none →
      handleAction p o = { content := ["Error: qualifier value required"], isError := true }) ∧
    (∀ o p, p.action = "api" → strMissing p.path = true →
      handleAction p o = { content := ["Error: path required for api"], isError := true }) ∧
    (∀ o p, p.action ∉ (["lookup", "search", "browse", "children", "qualifier", "overview", "api", "help"] : List String) →
      handleAction p o = { content := ["Unknown action: " ++ p.action], isError := true }) ∧
    (∀ (o : ClientOracle) (p : ICFParams) (e q : String), p.action = "search" →
      p.query = some q → q ≠ "" → o.searchDest q = Except.error e →
      handleAction p o = { content := ["Error: " ++ e], isError := true }) := by
  refine ⟨?_, ?_, ?_, ?_, ?_, ?_, ?_, ?_⟩
  · intro o p ha hm; simp [handleAction, handleActionBody, ha, hm]
  · intro o p ha hm; simp [handleAction, handleActionBody, ha, hm]
  · intro o p ha hm; simp [handleAction, handleActionBody, ha, hm]
  · intro o p ha hm; simp [handleAction, handleActionBody, ha, hm]
  · intro o p ha hm; simp [handleAction, handleActionBody, ha, hm]
  · intro o p ha hm; simp [handleAction, handleActionBody, ha, hm]
  · intro o p h
    simp only [List.mem_cons, List.not_mem_nil, or_false, not_or] at h
    obtain ⟨h1, h2, h3, h4, h5, h6, h7, h8⟩ := h
    simp [handleAction, handleActionBody, h1, h2, h3, h4, h5, h6, h7, h8]
  · intro o p e q ha hq hqne hde
    simp [handleAction, handleActionBody, ha, hq, strMissing, hqne, clientSearch, hde]

/-- Witness for C4: a lookup with no code, an unrecognized action name, and
a search whose client call throws, on concrete oracles. -/
theorem icf_C4_dispatch_witness :
    handleAction { action := "lookup" } emptyOracle =
      { content := ["Error: code required for lookup"], isError := true } ∧
    handleAction { action := "frobnicate" } emptyOracle =
      { content := ["Unknown action: frobnicate"], isError := true } ∧
    handleAction { action := "search", query := some "pain" } throwingOracle =
      { content := ["Error: API request failed: 500 - boom"], isError := true } :=
  ⟨icf_C4_dispatch.1 emptyOracle { action := "lookup" } rfl rfl,
    icf_C4_dispatch.2.2.2.2.2.2.1 emptyOracle { action := "frobnicate" } (by decide),
    icf_C4_dispatch.2.2.2.2.2.2.2 throwingOracle { action := "search", query := some "pain" }
      "API request failed: 500 - boom" "pain" rfl rfl (by decide) rfl⟩

/-- C6: a search with zero matching results renders the informational
no-codes-found text without the error flag; with `N` provider matches the
client truncates with `slice(0, maxResults)` — `min N max_results` entries
for a nonnegative requested count — keeping provider order, and each
code, title and resource identifier of each result default to `""`, score
to `0` when absent; the rendering numbers the entries 1..n in that order,
without the error flag. -/
theorem icf_C6_search :
    (∀ q : String, handleSearch q [] =
      { content := ["No ICF codes found for \x27" ++ q ++ "\x27. Try different search terms."]
        isError := false }) ∧
    (∀ (k : Int) (dest : List DestEntity), 0 ≤ k →
      jsSlice0 k dest = dest.take k.toNat ∧
      ((jsSlice0 k dest).map destToResult).length = min dest.length k.toNat) ∧
    (∀ (o : ClientOracle) (q : String) (k : Int) (destList : List DestEntity),
      o.searchDest q = Except.ok (some destList) →
      clientSearch o q k = Except.ok ((jsSlice0 k destList).map destToResult)) ∧
    (∀ item : DestEntity, destToResult item =
      { code := item.theCode.getD "", title := item.title.getD ""
        score := item.score.getD 0, uri := item.id.getD "" }) ∧
    (∀ (q : String) (results : List ICFSearchResult), results ≠ [] →
      (handleSearch q results).isError = false ∧
      (handleSearch q results).content =
        [String.intercalate "\n" (("**ICF Search Results for \x27" ++ q ++ "\x27:**\n")
          :: (results.enum.map (fun p => toString (p.1 + 1) ++ ". **" ++ p.2.code ++ "**: " ++ p.2.title))
          ++ ["\nUse \x7b\"action\": \"lookup\", \"code\": \"...\"\x7d for full details."])] ∧
      (results.enum.map (fun p => toString (p.1 + 1) ++ ". **" ++ p.2.code ++ "**: " ++ p.2.title)).length
        = results.length) := by
  refine ⟨fun q => rfl, ?_, ?_, fun item => rfl, ?_⟩
  · intro k dest hk
    have hsl : jsSlice0 k dest = dest.take k.toNat := by simp [jsSlice0, hk]
    refine ⟨hsl, ?_⟩
    rw [hsl]
    simp [List.length_take, Nat.min_comm]
  · intro o q k destList h
    simp [clientSearch, h]
  · intro q results hne
    have hlen : ¬ results.length = 0 := by
      simpa [List.length_eq_zero] using hne
    refine ⟨?_, ?_, ?_⟩
    · simp [handleSearch, hlen]
    · simp [handleSearch, hlen]
    · simp

/-- Witness for C6: ten entries out of eleven matches at `max_results = 10`,
and a one-result rendering flagged non-error. -/
theorem icf_C6_search_witness :
    jsSlice0 10 destList11 = destList11.take (10 : Int).toNat ∧
    ((jsSlice0 10 destList11).map destToResult).length = min destList11.length (10 : Int).toNat ∧
    clientSearch searchOracle "walking" 10 =
      Except.ok ((jsSlice0 10 destList11).map destToResult) ∧
    (handleSearch "pain" [⟨"b280", "Sensation of pain", 5, "u"⟩]).isError = false :=
  ⟨(icf_C6_search.2.1 10 destList11 (by decide)).1,
    (icf_C6_search.2.1 10 destList11 (by decide)).2,
    icf_C6_search.2.2.1 searchOracle "walking" 10 destList11 rfl,
    (icf_C6_search.2.2.2.2 "pain" [⟨"b280", "Sensation of pain", 5, "u"⟩] (by decide)).1⟩

/-- C7: the children action on a code with no resolved children renders the
informational leaf-level text without the error flag; a parent with declared
child references resolves them in declared order, and `filterMap` keeps
exactly the successfully resolved children, in that order, silently omitting
each child whose fetch failed; the rendering emits one line per resolved
child. -/
theorem icf_C7_children :
    (∀ code : String, handleChildren code [] =
      { content := ["No child codes found for \x27" ++ code ++ "\x27. This may be a leaf-level code."]
        isError := false }) ∧
    (∀ (gbc gbu : String → Option ICFEntity) (code : String),
      gbc code = none → getChildren gbc gbu code = []) ∧
    (∀ (gbc gbu : String → Option ICFEntity) (code : String) (ent : ICFEntity),
      gbc code = some ent → ent.children = none → getChildren gbc gbu code = []) ∧
    (∀ (gbc gbu : String → Option ICFEntity) (code : String) (ent : ICFEntity) (uris : List String),
      gbc code = some ent → ent.children = some uris →
      getChildren gbc gbu code = uris.filterMap gbu) ∧
    (∀ (gbu : String → Option ICFEntity) (uris : List String),
      uris.filterMap gbu =
        (uris.filter (fun u => (gbu u).isSome)).map (fun u => (gbu u).getD blankEntity)) ∧
    (∀ (code : String) (children : List ICFEntity), children ≠ [] →
      (handleChildren code children).isError = false ∧
      (handleChildren code children).content =
        [String.intercalate "\n" (("**Child codes under " ++ code ++ ":**\n")
          :: children.map (fun c => "- **" ++ c.code ++ "**: " ++ c.title))] ∧
      (children.map (fun c => "- **" ++ c.code ++ "**: " ++ c.title)).length = children.length) := by
  refine ⟨fun code => rfl, ?_, ?_, ?_, ?_, ?_⟩
  · intro gbc gbu code h
    simp [getChildren, h]
  · intro gbc gbu code ent h hch
    simp [getChildren, h, hch]
  · intro gbc gbu code ent uris h hch
    simp [getChildren, h, hch]
  · intro gbu uris
    induction uris with
    | nil => rfl
    | cons u rest ih =>
      cases hu : gbu u with
      | none => simp [List.filterMap_cons, List.filter_cons, hu, ih]
      | some v => simp [List.filterMap_cons, List.filter_cons, hu, ih]
  · intro code children hne
    have hlen : ¬ children.length = 0 := by
      simpa [List.length_eq_zero] using hne
    exact ⟨by simp [handleChildren, hlen], by simp [handleChildren, hlen], by simp⟩

/-- Witness for C7: a parent with three declared children of which the
second fails to resolve yields the two resolved children in declared order;
a leaf code renders the informational text. -/
theorem icf_C7_children_witness :
    getChildren (fun _ => some parentEntity) childFetch "d4" =
      (["u1", "u2", "u3"] : List String).filterMap childFetch ∧
    (["u1", "u2", "u3"] : List String).filterMap childFetch = [childA, childC] ∧
    (handleChildren "d4" [childA, childC]).isError = false ∧
    handleChildren "d499" [] =
      { content := ["No child codes found for \x27d499\x27. This may be a leaf-level code."]
        isError := false } :=
  ⟨icf_C7_children.2.2.2.1 (fun _ => some parentEntity) childFetch "d4" parentEntity
      ["u1", "u2", "u3"] rfl rfl,
    by decide,
    (icf_C7_children.2.2.2.2.2 "d4" [childA, childC] (by decide)).1,
    icf_C7_children.1 "d499"⟩

/-- C1 (evaluating the code at the failing input): the 401 branch of
`apiRequest` (who-client.ts lines 112-116) re-authenticates and retries with
NO retry counter. Against an API that answers 401 on every attempt, the
recursion never surfaces an `ApiError` — for every fuel bound it is still
running — and after two 401 responses the code issues a THIRD attempt
(three send events; here the third attempt succeeds), contradicting the
claim that the second unauthorized response is fatal without a third
attempt. -/
theorem icf_C1_unbounded_retry :
    (∀ (fuel : Nat) (st : ClientState) (ti ri : Nat) (sends : List SendEvent),
      (apiRequestGo 0 goodTok all401 fuel st ti ri sends).1 = ApiOutcome.noFuel) ∧
    (apiRequest 3 0 goodTok twice401 ⟨none, 0⟩).1 = ApiOutcome.success "payload" ∧
    (apiRequest 3 0 goodTok twice401 ⟨none, 0⟩).2.length = 3 := by
  refine ⟨?_, rfl, rfl⟩
  intro fuel
  induction fuel with
  | zero => intro st ti ri sends; rfl
  | succ n ih =>
    intro st ti ri sends
    rw [apiRequestGo]
    cases h : ensureToken st 0 (goodTok ti) with
    | error msg =>
      exfalso
      rw [ensureToken] at h
      by_cases hc : (tokenMissing st.accessToken || decide (st.tokenExpiry ≤ 0)) = true
      · rw [if_pos hc, authenticate] at h
        simp [goodTok] at h
      · rw [if_neg hc] at h
        simp at h
    | ok v =>
      obtain ⟨st2, tk, ex⟩ := v
      simp only [all401]
      exact ih _ _ _ _

/-- C2 counterexample: with a token endpoint failing with HTTP 500, a
`getEntityByCode` lookup does NOT surface the authentication failure: the
`apiRequest` for codeinfo rejects with the provider status/body, the
surrounding `try`/`catch` in `getEntityByCode` (who-client.ts lines 149-152)
converts it to `null`, and the lookup handler renders a NOT-FOUND text
without the error flag — refuting "surfaced to the caller and not converted
into a silent not-found result" for this operation. -/
theorem icf_C2_auth_swallowed_counterexample :
    (apiRequest 1 0 badTok okResp ⟨none, 0⟩).1 =
      ApiOutcome.authFailed "Authentication failed: 500 - server error" ∧
    getEntityByCode (Except.error "Authentication failed: 500 - server error")
      (fun _ => none) = none ∧
    handleLookup emptyOracle "b280" =
      { content := ["ICF code \x27b280\x27 not found. Use \x7b\"action\": \"search\", \"query\": \"...\"\x7d to find codes."]
        isError := false } :=
  ⟨rfl, rfl, rfl⟩

/-- C2 (amended): a failed token exchange (non-2xx) raises an error carrying
the provider status and body; `apiRequest` does not retry it and issues no
API attempt (empty send trace), so it propagates to direct callers such as
`search`; however `getEntityByCode` (and `getEntityByUri`) catch every
raised error and return `null`, so a code lookup renders such a failure as a
silent not-found result instead of surfacing it. -/
theorem icf_C2_auth_failure :
    (∀ (now : Int) (resp : TokenResponse), resp.ok = false →
      authenticate now resp =
        Except.error ("Authentication failed: " ++ toString resp.status ++ " - " ++ resp.errBody)) ∧
    (∀ (now : Int) (toks : Nat → TokenResponse) (resps : Nat → ApiResp String)
        (st : ClientState) (fuel : Nat),
      tokenMissing st.accessToken = true → (toks 0).ok = false →
      apiRequest (fuel + 1) now toks resps st =
        (ApiOutcome.authFailed ("Authentication failed: " ++ toString (toks 0).status ++ " - " ++ (toks 0).errBody), [])) ∧
    (∀ (msg : String) (gbu : String → Option ICFEntity),
      getEntityByCode (Except.error msg) gbu = none) := by
  refine ⟨?_, ?_, fun msg gbu => rfl⟩
  · intro now resp hok
    simp [authenticate, hok]
  · intro now toks resps st fuel hmiss hok
    rw [apiRequest, apiRequestGo]
    have h : ensureToken st now (toks 0) =
        Except.error ("Authentication failed: " ++ toString (toks 0).status ++ " - " ++ (toks 0).errBody) := by
      simp [ensureToken, hmiss, authenticate, hok]
    rw [h]

/-- Witness for C2 (amended) at concrete inputs: a 500 from the token
endpoint yields the error with status and body, `apiRequest` rejects with it
without sending any API attempt, and `getEntityByCode` converts a raised
error to `null`. -/
theorem icf_C2_auth_failure_witness :
    authenticate 0 ⟨false, 500, "server error", "", 0⟩ =
      Except.error "Authentication failed: 500 - server error" ∧
    apiRequest 1 0 badTok okResp ⟨none, 0⟩ =
      (ApiOutcome.authFailed "Authentication failed: 500 - server error", []) ∧
    getEntityByCode (Except.error "boom") (fun _ => none) = none :=
  ⟨icf_C2_auth_failure.1 0 ⟨false, 500, "server error", "", 0⟩ rfl,
    icf_C2_auth_failure.2.1 0 badTok okResp ⟨none, 0⟩ 0 rfl rfl,
    icf_C2_auth_failure.2.2 "boom" (fun _ => none)⟩

/-- C3 counterexample: when the provider reports a token lifetime of 0 s
(not exceeding the 300 s safety margin), `authenticate` records an expiry
already in the past, and `apiRequest` nonetheless sends the freshly fetched
bearer token: the send event occurs at time 1000000 with recorded expiry
700000 — a token sent AT/PAST its recorded expiry, refuting the
unconditional "never" in the claim. -/
theorem icf_C3_stale_send_counterexample :
    apiRequest 1 1000000 zeroLifeTok okResp ⟨none, 0⟩ =
      (ApiOutcome.success "ok", [⟨"tk", 1000000, 700000⟩]) ∧
    ¬ ((1000000 : Int) < 700000) :=
  ⟨rfl, by decide⟩

/-- C3 (amended): provided every token-exchange response reports a lifetime
strictly greater than the 300 s safety margin, every attempt of `apiRequest`
sends its bearer token strictly before the recorded expiry; a first call on
a fresh client performs one exchange and a second call within the recorded
validity window performs none (reusing the same token and state — exactly
one exchange across the two calls); a call at or after the recorded expiry
performs exactly one fresh exchange before proceeding. -/
theorem icf_C3_token_lifecycle :
    (∀ (now : Int) (toks : Nat → TokenResponse) (resps : Nat → ApiResp String)
        (fuel : Nat) (st : ClientState),
      (∀ i, 300 < (toks i).expiresIn) →
      ∀ e ∈ (apiRequest fuel now toks resps st).2, e.time < e.expiry) ∧
    (∀ (t1 t2 : Int) (tok tok2 : TokenResponse), tok.ok = true → tok.accessToken ≠ "" →
      ensureToken ⟨none, 0⟩ t1 tok =
        Except.ok (⟨some tok.accessToken, t1 + (tok.expiresIn - 300) * 1000⟩, tok.accessToken, true) ∧
      (t2 < t1 + (tok.expiresIn - 300) * 1000 →
        ensureToken ⟨some tok.accessToken, t1 + (tok.expiresIn - 300) * 1000⟩ t2 tok2 =
          Except.ok (⟨some tok.accessToken, t1 + (tok.expiresIn - 300) * 1000⟩, tok.accessToken, false))) ∧
    (∀ (st : ClientState) (now : Int) (tok : TokenResponse), tok.ok = true →
      st.tokenExpiry ≤ now →
      ensureToken st now tok =
        Except.ok (⟨some tok.accessToken, now + (tok.expiresIn - 300) * 1000⟩, tok.accessToken, true)) := by
  refine ⟨?_, ?_, ?_⟩
  · intro now toks resps fuel st hlife e he
    exact apiRequestGo_sends_fresh now toks resps fuel st 0 0 [] hlife (by intro x hx; cases hx) e he
  · intro t1 t2 tok tok2 hok hne
    constructor
    · simp [ensureToken, tokenMissing, authenticate, hok]
    · intro h2
      have hmiss : tokenMissing (some tok.accessToken) = false := by
        simp [tokenMissing, hne]
      simp [ensureToken, hmiss, not_le.mpr h2]
  · intro st now tok hok hexp
    simp [ensureToken, authenticate, hok, hexp]

/-- Witness for C3 (amended) at concrete inputs: a one-hour token is sent
before its recorded expiry; a fresh client exchanges once and a second call
inside the window exchanges zero times; an expired state exchanges exactly
once. -/
theorem icf_C3_token_lifecycle_witness :
    ((⟨"tok", 5, 3300005⟩ : SendEvent).time < (⟨"tok", 5, 3300005⟩ : SendEvent).expiry) ∧
    (ensureToken ⟨none, 0⟩ 0 ⟨true, 200, "", "tk", 3600⟩ =
      Except.ok (⟨some "tk", 0 + ((3600 : Int) - 300) * 1000⟩, "tk", true)) ∧
    (ensureToken ⟨some "tk", 0 + ((3600 : Int) - 300) * 1000⟩ 1 ⟨true, 200, "", "other", 3600⟩ =
      Except.ok (⟨some "tk", 0 + ((3600 : Int) - 300) * 1000⟩, "tk", false)) ∧
    (ensureToken ⟨some "old", 10⟩ 20 ⟨true, 200, "", "new", 3600⟩ =
      Except.ok (⟨some "new", 20 + ((3600 : Int) - 300) * 1000⟩, "new", true)) :=
  ⟨icf_C3_token_lifecycle.1 5 goodTok okResp 2 ⟨none, 0⟩ (fun i => by simp [goodTok])
      ⟨"tok", 5, 3300005⟩ (by decide),
    (icf_C3_token_lifecycle.2.1 0 1 ⟨true, 200, "", "tk", 3600⟩ ⟨true, 200, "", "other", 3600⟩
      rfl (by decide)).1,
    (icf_C3_token_lifecycle.2.1 0 1 ⟨true, 200, "", "tk", 3600⟩ ⟨true, 200, "", "other", 3600⟩
      rfl (by decide)).2 (by decide),
    icf_C3_token_lifecycle.2.2 ⟨some "old", 10⟩ 20 ⟨true, 200, "", "new", 3600⟩ rfl (by decide)⟩
